import Mathlib

/-!
Shallow embedding of the NewsTool subsystem of `agent_system`
(`src/agent_system/tools/news_tool.py`): the cached multi-provider
search orchestrator (`NewsTool.search` / `NewsTool.cached_search`),
the provider adapters (`NewsTool.search_bing` / `NewsTool.search_google`),
and the answer entry point (`NewsTool.use`).

External collaborators are modelled explicitly:
* the on-disk cache (`diskcache.Cache`) is modelled from the spec's
  ContentCache contract: a key/value store with per-entry absolute expiry,
  where a present unexpired entry is returned and an expired entry behaves
  as a miss, and `set` overwrites;
* each provider's underlying HTTP behaviour is a parameter (what the n-th
  underlying call for a query returns);
* the language-model service is a parameter mapping the prompt to an outcome.

Python exceptions are modelled with an explicit error type and `Except`;
machine state threaded through the orchestrator is (cache, current time,
per-provider underlying-call counters).
-/

namespace NewsTool

/-- A normalized search result, as built by both provider adapters in
`news_tool.py`: a Python dict with keys `name`, `url`, `snippet`. -/
structure SearchResult where
  name : String
  url : String
  snippet : String
deriving DecidableEq, Repr

/-- An ordered sequence of search results (a Python list). -/
abbrev Results := List SearchResult

/-- One cache entry: key, stored value, and the absolute time at which the
entry expires (creation time + TTL). -/
structure CEntry where
  key : String
  value : Results
  expireAt : Nat
deriving DecidableEq, Repr

/-- Modelled from the spec: the ContentCache store (`diskcache.Cache` in the
source, a library external to the repository).  A list of entries; the most
recently set entry for a key shadows older ones. -/
abbrev Cache := List CEntry

/-- Modelled from the spec: cache lookup (`query in self.cache` followed by
`self.cache[query]`).  An entry present and unexpired returns its value; an
expired entry behaves as a miss (returns nothing) without raising. -/
def cacheGet (c : Cache) (t : Nat) (k : String) : Option Results :=
  match c.find? (fun e => e.key == k) with
  | some e => if t < e.expireAt then some e.value else none
  | none => none

/-- Modelled from the spec: `self.cache.set(key, value, expire=ttl)`.
Always overwrites: the new entry shadows any previous entry for the key. -/
def cacheSet (c : Cache) (k : String) (v : Results) (ttl : Nat) (t : Nat) : Cache :=
  ⟨k, v, t + ttl⟩ :: c

/-- The TTL used by `cached_search`: `7 * 24 * 60 * 60` seconds (one week). -/
def WEEK : Nat := 7 * 24 * 60 * 60

/-- The underlying behaviour of one provider's search function: what its
n-th underlying call (0-indexed, counted per provider) returns for a query.
The adapters never raise only for transport errors (see `search_bing`
below); here the orchestrator-level model treats a provider call as
returning a result list, as `cached_search` consumes it. -/
abbrev ProviderFun := String → Nat → Results

/-- `NewsTool.cached_search(query, search_function)`:
if the query is in the cache return the cached value, otherwise call the
search function once, store the result with a 7-day TTL (also when the
result is empty), and return it.  State: cache `c`, current time `t`,
provider's underlying-call counter `n`.  Returns (results, cache, counter). -/
def cached_search (c : Cache) (t : Nat) (q : String) (f : ProviderFun) (n : Nat) :
    Results × Cache × Nat :=
  match cacheGet c t q with
  | some v => (v, c, n)
  | none =>
    let r := f q n
    (r, cacheSet c q r WEEK t, n + 1)

/-- `self.max_retries = 3`. -/
def maxRetries : Nat := 3

/-- The inner `for _ in range(self.max_retries)` loop of `NewsTool.search`
for one api closure: call `cached_search`, return the results if non-empty
(Python truthiness of a list), otherwise retry while fuel remains.
Returns (`some` results on early return / `none` if all attempts were
empty, cache, counter). -/
def retryLoop (f : ProviderFun) (q : String) (t : Nat) :
    Nat → Cache → Nat → Option Results × Cache × Nat
  | 0, c, n => (none, c, n)
  | fuel + 1, c, n =>
    match cached_search c t q f n with
    | (r, c2, n2) => if r = [] then retryLoop f q t fuel c2 n2 else (some r, c2, n2)

/-- `NewsTool.search(query)`: try
`lambda q: self.cached_search(q, self.search_bing)` then
`lambda q: self.cached_search(q, self.search_google)`, each with up to
`max_retries` attempts, returning the first non-empty results, else `[]`.
`p1`/`p2` are the providers' underlying behaviours, `n1`/`n2` their
underlying-call counters.  Returns (results, cache, counter1, counter2). -/
def search (p1 p2 : ProviderFun) (q : String) (c : Cache) (t : Nat) (n1 n2 : Nat) :
    Results × Cache × Nat × Nat :=
  match retryLoop p1 q t maxRetries c n1 with
  | (some r, c2, m1) => (r, c2, m1, n2)
  | (none, c2, m1) =>
    match retryLoop p2 q t maxRetries c2 n2 with
    | (some r, c3, m2) => (r, c3, m1, m2)
    | (none, c3, m2) => ([], c3, m1, m2)

/-- A JSON value, as returned by `response.json()`. -/
inductive Json where
  | null
  | bool (b : Bool)
  | num (n : Int)
  | str (s : String)
  | arr (xs : List Json)
  | obj (fields : List (String × Json))

/-- The Python exceptions relevant to the adapters and `use`:
`requests.RequestException` (the only class the adapters catch; in
requests ≥ 2.27 it includes the `response.json()` decode error),
`KeyError` (dict subscript with a missing key), `AttributeError`
(`.get` on a non-dict), `TypeError` (iterating / subscripting a value of
the wrong type), and a catch-all for any other `Exception`. -/
inductive PyExc where
  | requestException
  | keyError
  | attributeError
  | typeError
  | otherExc
deriving DecidableEq, Repr

/-- A raw mapped result dict as the adapters build it:
`\x7b'name': ..., 'url': ..., 'snippet': ...\x7d` with arbitrary JSON values. -/
structure RawResult where
  name : Json
  url : Json
  snippet : Json

/-- Python `d.get(key, default)`: only defined on dicts, returns the default
when the key is absent; on a non-dict value `.get` raises `AttributeError`. -/
def dictGet (j : Json) (k : String) (default : Json) : Except PyExc Json :=
  match j with
  | .obj fields =>
    match fields.find? (fun f => f.1 == k) with
    | some f => .ok f.2
    | none => .ok default
  | _ => .error .attributeError

/-- Python `d[key]` on a dict: raises `KeyError` when the key is absent;
subscripting a non-dict with a string raises `TypeError`. -/
def dictIndex (j : Json) (k : String) : Except PyExc Json :=
  match j with
  | .obj fields =>
    match fields.find? (fun f => f.1 == k) with
    | some f => .ok f.2
    | none => .error .keyError
  | _ => .error .typeError

/-- The outcome of one HTTP request from an adapter's point of view:
a `requests.RequestException` (from `requests.get` or `raise_for_status`),
a `response.json()` decode failure, or a successfully decoded body. -/
inductive HttpOutcome where
  | transportError
  | badJson
  | ok (body : Json)

/-- The comprehension element of `search_bing`:
`\x7b'name': result['name'], 'url': result['url'], 'snippet': result['snippet']\x7d`. -/
def mapBingItem (j : Json) : Except PyExc RawResult := do
  let n ← dictIndex j "name"
  let u ← dictIndex j "url"
  let s ← dictIndex j "snippet"
  return ⟨n, u, s⟩

/-- The comprehension element of `search_google`:
`\x7b'name': item['title'], 'url': item['link'], 'snippet': item['snippet']\x7d`. -/
def mapGoogleItem (j : Json) : Except PyExc RawResult := do
  let n ← dictIndex j "title"
  let u ← dictIndex j "link"
  let s ← dictIndex j "snippet"
  return ⟨n, u, s⟩

/-- `NewsTool.search_bing(query)` as a function of the HTTP outcome:
the `try` block performs the request, raises for status, decodes JSON,
drills into `webPages.value`, and maps each item; the `except` clause
catches exactly `requests.RequestException` and returns `[]`.  Any other
exception (`KeyError` from a missing item field, `AttributeError` /
`TypeError` from an unexpected shape) propagates. -/
def search_bing (resp : HttpOutcome) : Except PyExc (List RawResult) :=
  let attempt : Except PyExc (List RawResult) :=
    match resp with
    | .transportError => .error .requestException
    | .badJson => .error .requestException
    | .ok body => do
      let wp ← dictGet body "webPages" (.obj [])
      let v ← dictGet wp "value" (.arr [])
      match v with
      | .arr xs => xs.mapM mapBingItem
      | _ => .error .typeError
  match attempt with
  | .error .requestException => .ok []
  | other => other

/-- `NewsTool.search_google(query)` as a function of the HTTP outcome:
like `search_bing` but drilling into `items` and mapping
title/link/snippet; the `except` clause again catches exactly
`requests.RequestException`. -/
def search_google (resp : HttpOutcome) : Except PyExc (List RawResult) :=
  let attempt : Except PyExc (List RawResult) :=
    match resp with
    | .transportError => .error .requestException
    | .badJson => .error .requestException
    | .ok body => do
      let v ← dictGet body "items" (.arr [])
      match v with
      | .arr xs => xs.mapM mapGoogleItem
      | _ => .error .typeError
  match attempt with
  | .error .requestException => .ok []
  | other => other

/-- The `response_message` of the completion: either a dict (checked first
with `isinstance(..., dict) and 'content' in ...`) or an object whose
`content` attribute may or may not exist. -/
inductive LLMMessage where
  | dictMsg (fields : List (String × String))
  | objMsg (content : Option String)

/-- The response-parsing chain of `NewsTool.use`: a dict containing
`content` returns it stripped; otherwise an object with a `content`
attribute returns it stripped; otherwise the literal parse-failure
string.  (A dict without `content` has no `content` attribute, so it
falls through to the final branch.) -/
def parseMessage : LLMMessage → String
  | .dictMsg fields =>
    match fields.find? (fun f => f.1 == "content") with
    | some f => f.2.trim
    | none => "Unable to parse the response format."
  | .objMsg (some content) => content.trim
  | .objMsg none => "Unable to parse the response format."

/-- The `sources` string of `NewsTool.use`: a `'\n\n'.join` over the
labelled source blocks built from each result's name/url/snippet. -/
def buildSources (results : Results) : String :=
  String.intercalate "\n\n" (results.map (fun r =>
    "Source:\nTitle: " ++ r.name ++ "\nURL: " ++ r.url ++ "\nContent: " ++ r.snippet))

/-- The prompt of `NewsTool.use`: sources then the question. -/
def buildPrompt (question : String) (results : Results) : String :=
  "Use the following sources to answer the question:\n\n" ++ buildSources results ++
    "\n\nQuestion: " ++ question ++ "\n\nAnswer:"

/-- What `self.search(question)` does from `use`'s point of view: either it
raises some exception (e.g. a `KeyError` escaping an adapter) or it returns
a result list. -/
inductive SearchOutcome where
  | raises (e : PyExc)
  | returns (rs : Results)

/-- What `self.client.chat.completions.create(...)` does: raise, or return
a completion whose first choice's message is `msg`. -/
inductive LLMOutcome where
  | failure (e : PyExc)
  | success (msg : LLMMessage)

/-- The `try` block of `NewsTool.use`: run the search, build the prompt,
call the language model on it, parse the message.  Returns the produced
string or the escaping exception, together with the number of search
calls and of language-model calls issued. -/
def useBody (question : String) (s : SearchOutcome) (llm : String → LLMOutcome) :
    Except PyExc String × Nat × Nat :=
  match s with
  | .raises e => (.error e, 1, 0)
  | .returns results =>
    let prompt := buildPrompt question results
    match llm prompt with
    | .failure e => (.error e, 1, 1)
    | .success msg => (.ok (parseMessage msg), 1, 1)

/-- `NewsTool.use(*args)`: if no positional argument was given, return the
literal error string before any external call; otherwise take the first
argument as the question and run the `try` block, converting any escaping
exception (`except Exception`) into the fixed fallback message.
Returns (answer, search calls issued, language-model calls issued). -/
def use (args : List String) (s : SearchOutcome) (llm : String → LLMOutcome) :
    String × Nat × Nat :=
  match args with
  | [] => ("Error: A question is required.", 0, 0)
  | question :: _ =>
    match useBody question s llm with
    | (.ok answer, a, b) => (answer, a, b)
    | (.error _, a, b) => ("Unable to generate an answer at this time.", a, b)

/-! ### Helper lemmas about the cache and the orchestrator -/

/-- Looking up a key right after setting it sees the new entry; it is a hit
exactly while the lookup time is before the entry's expiry. -/
theorem cacheGet_cacheSet_self (c : Cache) (k : String) (v : Results) (ttl t t' : Nat) :
    cacheGet (cacheSet c k v ttl t) t' k = if t' < t + ttl then some v else none := by
  simp [cacheGet, cacheSet, List.find?]

/-- While the cache holds an empty list for the query, every attempt of the
retry loop is a cache hit returning `[]`, so the loop exhausts its fuel
without calling the provider and without changing the cache. -/
theorem retryLoop_hit_empty (q : String) (t : Nat) (c : Cache)
    (h : cacheGet c t q = some []) (f : ProviderFun) :
    ∀ fuel n, retryLoop f q t fuel c n = (none, c, n) := by
  intro fuel
  induction fuel with
  | zero => intro n; rfl
  | succ fuel ih => intro n; simp [retryLoop, cached_search, h, ih]

/-- When the cache holds a non-empty list for the query, the first attempt
of the retry loop is a hit and returns it, calling no provider. -/
theorem retryLoop_hit_ne (q : String) (t : Nat) (c : Cache) (v : Results)
    (h : cacheGet c t q = some v) (hv : v ≠ []) (f : ProviderFun) (fuel n : Nat) :
    retryLoop f q t (fuel + 1) c n = (some v, c, n) := by
  simp [retryLoop, cached_search, h, hv]

/-- On a cache miss the retry loop calls the provider exactly once and
stores its result: if the result is non-empty it is returned at once;
if it is empty, the stored empty entry makes every remaining attempt a
cache hit, so the loop ends with fuel exhausted and one provider call. -/
theorem retryLoop_miss (q : String) (t : Nat) (c : Cache)
    (h : cacheGet c t q = none) (f : ProviderFun) (fuel n : Nat) :
    retryLoop f q t (fuel + 1) c n =
      (if f q n = [] then none else some (f q n), cacheSet c q (f q n) WEEK t, n + 1) := by
  rcases eq_or_ne (f q n) [] with he | he
  · have hset : cacheGet (cacheSet c q (f q n) WEEK t) t q = some (f q n) := by
      rw [cacheGet_cacheSet_self]
      simp [WEEK]
    rw [he] at hset
    simp [retryLoop, cached_search, h, he, retryLoop_hit_empty q t _ hset f fuel]
  · simp [retryLoop, cached_search, h, he]

/-- `maxRetries` in successor form, for applying the retry-loop lemmas. -/
theorem maxRetries_succ : maxRetries = 2 + 1 := rfl

/-- A present, unexpired cache entry is authoritative: `search` returns the
cached value, the cache is unchanged, and neither provider's underlying
search function is called. -/
theorem search_of_hit (q : String) (t : Nat) (c : Cache) (v : Results)
    (h : cacheGet c t q = some v) (p1 p2 : ProviderFun) (n1 n2 : Nat) :
    search p1 p2 q c t n1 n2 = (v, c, n1, n2) := by
  rcases eq_or_ne v [] with hv | hv
  · subst hv
    simp [search, retryLoop_hit_empty q t c h]
  · unfold search
    rw [maxRetries_succ, retryLoop_hit_ne q t c v h hv p1 2 n1]

/-- On a cache miss, `search` calls provider 1's underlying function exactly
once, stores its result under the raw query key with the one-week TTL, and
returns that result; provider 2's underlying function is never called
(when the first result is empty, the stored empty entry turns all remaining
attempts — provider 1's retries and every provider 2 attempt — into cache
hits). -/
theorem search_of_miss (q : String) (t : Nat) (c : Cache)
    (h : cacheGet c t q = none) (p1 p2 : ProviderFun) (n1 n2 : Nat) :
    search p1 p2 q c t n1 n2 =
      (p1 q n1, cacheSet c q (p1 q n1) WEEK t, n1 + 1, n2) := by
  have hset : cacheGet (cacheSet c q (p1 q n1) WEEK t) t q = some (p1 q n1) := by
    rw [cacheGet_cacheSet_self]
    simp [WEEK]
  rcases eq_or_ne (p1 q n1) [] with he | he
  · have hset0 : cacheGet (cacheSet c q [] WEEK t) t q = some [] := by
      rw [cacheGet_cacheSet_self]
      simp [WEEK]
    unfold search
    rw [maxRetries_succ, retryLoop_miss q t c h p1 2 n1, he]
    simp [retryLoop_hit_empty q t _ hset0 p2]
  · unfold search
    rw [maxRetries_succ, retryLoop_miss q t c h p1 2 n1, if_neg he]

/-! ### Claim theorems -/

/-- C1 (counterexample): with an empty cache, a first provider that always
returns `[]` and a second provider that always returns a non-empty list,
`search "x"` does NOT return provider 2's results and the call counts are
not 3 and 1: the empty result of provider 1's single underlying call is
cached under the raw query key, so provider 1's retries and all of
provider 2's attempts are cache hits — `search` returns `[]`, provider 1's
underlying function ran once, provider 2's never ran. -/
theorem c1_counterexample :
    search (fun _ _ => []) (fun _ _ => [⟨"T", "u", "s"⟩]) "x" [] 0 0 0 =
      ([], [⟨"x", [], WEEK⟩], 1, 0) ∧
    ¬((search (fun _ _ => []) (fun _ _ => [⟨"T", "u", "s"⟩]) "x" [] 0 0 0).1 =
        [⟨"T", "u", "s"⟩] ∧
      (search (fun _ _ => []) (fun _ _ => [⟨"T", "u", "s"⟩]) "x" [] 0 0 0).2.2.1 = 3 ∧
      (search (fun _ _ => []) (fun _ _ => [⟨"T", "u", "s"⟩]) "x" [] 0 0 0).2.2.2 = 1) := by
  decide

/-- C1 (amended): for every query not in the cache on which provider 1's
underlying call returns empty results, `search` returns the empty sequence,
provider 1's underlying function is called exactly once (its empty result
is stored under the raw query key, so both remaining retries are cache
hits), and provider 2's underlying function is never called (its attempts
hit the same shared cache key). -/
theorem c1_amended_shared_cache_key (p1 p2 : ProviderFun) (q : String) (c : Cache)
    (t n1 n2 : Nat) (hmiss : cacheGet c t q = none) (hempty : p1 q n1 = []) :
    search p1 p2 q c t n1 n2 = ([], cacheSet c q [] WEEK t, n1 + 1, n2) := by
  have h := search_of_miss q t c hmiss p1 p2 n1 n2
  rwa [hempty] at h

/-- C1 (witness for the amended theorem). -/
theorem c1_amended_witness :
    search (fun _ _ => []) (fun _ _ => [⟨"T", "u", "s"⟩]) "z" [] 0 0 0 =
      ([], cacheSet [] "z" [] WEEK 0, 0 + 1, 0) :=
  c1_amended_shared_cache_key (fun _ _ => []) (fun _ _ => [⟨"T", "u", "s"⟩]) "z" [] 0 0 0
    rfl rfl

/-- C2 (counterexample): a successfully decoded response whose item list
contains a dict lacking the expected field makes each adapter raise
`KeyError` instead of returning `[]`: the `except` clause catches only
`requests.RequestException`. -/
theorem c2_counterexample :
    search_bing (.ok (.obj [("webPages", .obj [("value", .arr [.obj []])])])) =
      .error .keyError ∧
    search_google (.ok (.obj [("items", .arr [.obj []])])) = .error .keyError :=
  ⟨rfl, rfl⟩

/-- C2 (amended): each adapter never raises on a transport failure or on a
malformed JSON body (in requests ≥ 2.27 the `response.json()` decode error
is a `requests.RequestException`, the one class the adapters catch) and
returns the empty sequence there; but a response item lacking an expected
field raises `KeyError`, which is not caught. -/
theorem c2_amended_transport_errors_caught :
    search_bing .transportError = .ok [] ∧
    search_bing .badJson = .ok [] ∧
    search_google .transportError = .ok [] ∧
    search_google .badJson = .ok [] :=
  ⟨rfl, rfl, rfl, rfl⟩

/-- C3 (counterexample): calling `use` with the empty-string question does
NOT return the invalid-input error string and does issue external calls:
the guard `if not args` only checks that a positional argument exists, and
`("",)` is a non-empty tuple, so `use("")` proceeds to `search("")` (one
search call issued here) and on to the language model. -/
theorem c3_counterexample :
    use [""] (.returns []) (fun _ => .failure .otherExc) =
      ("Unable to generate an answer at this time.", 1, 1) ∧
    (use [""] (.returns []) (fun _ => .failure .otherExc)).1 ≠
      "Error: A question is required." ∧
    (use [""] (.returns []) (fun _ => .failure .otherExc)).2.1 ≠ 0 := by
  refine ⟨rfl, ?_, ?_⟩ <;> decide

/-- C3 (amended): calling `use` with NO positional argument returns the
literal error string "Error: A question is required." and issues zero
external calls (no search call, no language-model call); the empty-string
question, by contrast, passes the `if not args` guard. -/
theorem c3_amended_no_args_guard (s : SearchOutcome) (llm : String → LLMOutcome) :
    use [] s llm = ("Error: A question is required.", 0, 0) := rfl

/-- C4: for every query on which provider 1's `cached_search` yields
non-empty results — whether from a cache hit or from a fresh underlying
call — `search` returns exactly those results with `cached_search`'s
state, and provider 2 is never invoked (its underlying-call counter is
unchanged). -/
theorem c4_first_provider_short_circuit (p1 p2 : ProviderFun) (q : String) (c : Cache)
    (t n1 n2 : Nat) (r : Results) (c2 : Cache) (m : Nat)
    (hcs : cached_search c t q p1 n1 = (r, c2, m)) (hne : r ≠ []) :
    search p1 p2 q c t n1 n2 = (r, c2, m, n2) := by
  rcases hget : cacheGet c t q with _ | v
  · rw [search_of_miss q t c hget p1 p2 n1 n2]
    simp only [cached_search, hget, Prod.mk.injEq] at hcs
    obtain ⟨h1, h2, h3⟩ := hcs
    subst h1
    subst h2
    subst h3
    rfl
  · rw [search_of_hit q t c v hget p1 p2 n1 n2]
    simp only [cached_search, hget, Prod.mk.injEq] at hcs
    obtain ⟨h1, h2, h3⟩ := hcs
    subst h1
    subst h2
    subst h3
    rfl

/-- C4 (witness). -/
theorem c4_witness :
    search (fun _ _ => [⟨"T", "u", "s"⟩]) (fun _ _ => []) "x" [] 0 0 0 =
      ([⟨"T", "u", "s"⟩], cacheSet [] "x" [⟨"T", "u", "s"⟩] WEEK 0, 1, 0) :=
  c4_first_provider_short_circuit (fun _ _ => [⟨"T", "u", "s"⟩]) (fun _ _ => []) "x" [] 0 0 0
    [⟨"T", "u", "s"⟩] (cacheSet [] "x" [⟨"T", "u", "s"⟩] WEEK 0) 1 rfl (by decide)

/-- C5: a query whose key is present and unexpired in the cache makes
`search` return the cached result sequence with the cache unchanged and
both providers' underlying-call counters unchanged — no provider function
is called, whatever the providers would do. -/
theorem c5_cache_hit_authoritative (p1 p2 : ProviderFun) (q : String) (c : Cache)
    (t n1 n2 : Nat) (v : Results) (hhit : cacheGet c t q = some v) :
    search p1 p2 q c t n1 n2 = (v, c, n1, n2) :=
  search_of_hit q t c v hhit p1 p2 n1 n2

/-- C5 (witness): the spec's scenario — a cached entry for key "y" holding
one result; providers irrelevant. -/
theorem c5_witness :
    search (fun _ _ => []) (fun _ _ => []) "y" [⟨"y", [⟨"C", "", ""⟩], 100⟩] 0 0 0 =
      ([⟨"C", "", ""⟩], [⟨"y", [⟨"C", "", ""⟩], 100⟩], 0, 0) :=
  c5_cache_hit_authoritative (fun _ _ => []) (fun _ _ => []) "y"
    [⟨"y", [⟨"C", "", ""⟩], 100⟩] 0 0 0 [⟨"C", "", ""⟩] (by decide)

/-- C6: on a cache miss (key absent or expired, i.e. the lookup returns
nothing), `cached_search` calls the provider's search function exactly once
(the counter advances from `n` to `n + 1`) and stores the returned results
under the query key with the 7-day TTL `WEEK = 7 * 24 * 60 * 60` seconds —
also when the returned sequence is empty, since the result is stored
unconditionally. -/
theorem c6_miss_calls_once_and_stores (c : Cache) (t : Nat) (q : String)
    (f : ProviderFun) (n : Nat) (hmiss : cacheGet c t q = none) :
    cached_search c t q f n = (f q n, cacheSet c q (f q n) WEEK t, n + 1) := by
  simp only [cached_search, hmiss]

/-- C6 (witness): a fresh query with a provider returning the empty
sequence — stored all the same. -/
theorem c6_witness :
    cached_search [] 5 "q" (fun _ _ => []) 0 = ([], cacheSet [] "q" [] WEEK 5, 0 + 1) :=
  c6_miss_calls_once_and_stores [] 5 "q" (fun _ _ => []) 0 rfl

/-- C7: calling `search q` twice within the TTL window issues at most one
underlying provider call in total for `q`, and the second call returns
results identical to the first.  The window hypotheses say the second call
happens no earlier than the first and within one week of it when the first
call populated the entry, and that an entry the first call hit is still
unexpired at the second call.  The final inequality bounds the combined
underlying-call counters of both searches (the second search leaves every
component unchanged, as the equation states). -/
theorem c7_search_idempotent_within_ttl (p1 p2 : ProviderFun) (q : String) (c : Cache)
    (t t' n1 n2 : Nat) (_htt : t ≤ t')
    (hwin : cacheGet c t q = none → t' < t + WEEK)
    (hkeep : ∀ v, cacheGet c t q = some v → cacheGet c t' q = some v) :
    search p1 p2 q ((search p1 p2 q c t n1 n2).2.1) t'
        ((search p1 p2 q c t n1 n2).2.2.1) ((search p1 p2 q c t n1 n2).2.2.2) =
      ((search p1 p2 q c t n1 n2).1, (search p1 p2 q c t n1 n2).2.1,
        (search p1 p2 q c t n1 n2).2.2.1, (search p1 p2 q c t n1 n2).2.2.2) ∧
    (search p1 p2 q c t n1 n2).2.2.1 + (search p1 p2 q c t n1 n2).2.2.2 ≤ n1 + n2 + 1 := by
  rcases hget : cacheGet c t q with _ | v
  · rw [search_of_miss q t c hget p1 p2 n1 n2]
    have hhit : cacheGet (cacheSet c q (p1 q n1) WEEK t) t' q = some (p1 q n1) := by
      rw [cacheGet_cacheSet_self]
      exact if_pos (hwin hget)
    refine ⟨search_of_hit q t' _ _ hhit p1 p2 _ _, ?_⟩
    show n1 + 1 + n2 ≤ n1 + n2 + 1
    omega
  · rw [search_of_hit q t c v hget p1 p2 n1 n2]
    refine ⟨search_of_hit q t' c v (hkeep v hget) p1 p2 n1 n2, ?_⟩
    show n1 + n2 ≤ n1 + n2 + 1
    omega

/-- C7 (witness). -/
theorem c7_witness :
    search (fun _ _ => [⟨"T", "u", "s"⟩]) (fun _ _ => []) "x"
        ((search (fun _ _ => [⟨"T", "u", "s"⟩]) (fun _ _ => []) "x" [] 0 0 0).2.1) 9
        ((search (fun _ _ => [⟨"T", "u", "s"⟩]) (fun _ _ => []) "x" [] 0 0 0).2.2.1)
        ((search (fun _ _ => [⟨"T", "u", "s"⟩]) (fun _ _ => []) "x" [] 0 0 0).2.2.2) =
      ((search (fun _ _ => [⟨"T", "u", "s"⟩]) (fun _ _ => []) "x" [] 0 0 0).1,
        (search (fun _ _ => [⟨"T", "u", "s"⟩]) (fun _ _ => []) "x" [] 0 0 0).2.1,
        (search (fun _ _ => [⟨"T", "u", "s"⟩]) (fun _ _ => []) "x" [] 0 0 0).2.2.1,
        (search (fun _ _ => [⟨"T", "u", "s"⟩]) (fun _ _ => []) "x" [] 0 0 0).2.2.2) ∧
    (search (fun _ _ => [⟨"T", "u", "s"⟩]) (fun _ _ => []) "x" [] 0 0 0).2.2.1 +
        (search (fun _ _ => [⟨"T", "u", "s"⟩]) (fun _ _ => []) "x" [] 0 0 0).2.2.2 ≤
      0 + 0 + 1 :=
  c7_search_idempotent_within_ttl (fun _ _ => [⟨"T", "u", "s"⟩]) (fun _ _ => []) "x" [] 0 9 0 0
    (by decide) (fun _ => by decide) (fun v h => Option.noConfusion h)

/-- C8: a cache entry for the query whose expiry time has passed behaves as
a miss — the lookup returns nothing (without raising, being a total
function) — and a subsequent `search` issues a fresh underlying provider
call for the query (provider 1's counter advances by one). -/
theorem c8_expired_entry_is_miss (c : Cache) (t : Nat) (q : String) (v : Results)
    (e : Nat) (p1 p2 : ProviderFun) (n1 n2 : Nat)
    (hfind : c.find? (fun en => en.key == q) = some ⟨q, v, e⟩) (hexp : e ≤ t) :
    cacheGet c t q = none ∧
    search p1 p2 q c t n1 n2 =
      (p1 q n1, cacheSet c q (p1 q n1) WEEK t, n1 + 1, n2) := by
  have hmiss : cacheGet c t q = none := by
    simp only [cacheGet, hfind]
    exact if_neg (Nat.not_lt.mpr hexp)
  exact ⟨hmiss, search_of_miss q t c hmiss p1 p2 n1 n2⟩

/-- C8 (witness): an entry for "y" that expired at time 100, looked up at
time 100. -/
theorem c8_witness :
    cacheGet [⟨"y", [⟨"C", "", ""⟩], 100⟩] 100 "y" = none ∧
    search (fun _ _ => [⟨"T", "u", "s"⟩]) (fun _ _ => []) "y"
        [⟨"y", [⟨"C", "", ""⟩], 100⟩] 100 0 0 =
      ([⟨"T", "u", "s"⟩],
        cacheSet [⟨"y", [⟨"C", "", ""⟩], 100⟩] "y" [⟨"T", "u", "s"⟩] WEEK 100, 0 + 1, 0) :=
  c8_expired_entry_is_miss [⟨"y", [⟨"C", "", ""⟩], 100⟩] 100 "y" [⟨"C", "", ""⟩] 100
    (fun _ _ => [⟨"T", "u", "s"⟩]) (fun _ _ => []) 0 0 (by decide) (by decide)

/-- C9: no failure of an external call escapes `use` to its caller.  The
model makes `use` a total function returning a string; this theorem states
the `except Exception` clause: whenever the `try` body — the provider
search followed by the language-model completion — ends in ANY exception
(`useBody` returns an error, which covers both a provider-search failure
and a language-model failure), `use` returns the fixed fallback message
"Unable to generate an answer at this time." with the same external-call
counts, rather than propagating the failure. -/
theorem c9_use_catches_all_failures (question : String) (rest : List String)
    (s : SearchOutcome) (llm : String → LLMOutcome) (e : PyExc) (a b : Nat)
    (hbody : useBody question s llm = (Except.error e, a, b)) :
    use (question :: rest) s llm = ("Unable to generate an answer at this time.", a, b) := by
  simp only [use, hbody]

/-- C9 (witness): a language-model failure after a successful empty search. -/
theorem c9_witness :
    use ["q"] (.returns []) (fun _ => .failure .otherExc) =
      ("Unable to generate an answer at this time.", 1, 1) :=
  c9_use_catches_all_failures "q" [] (.returns []) (fun _ => .failure .otherExc)
    .otherExc 1 1 rfl

/-- C10 (implicit invariant): a completed `search q` that found no
unexpired entry stores exactly its returned value — provider 1's first
underlying result, possibly the empty sequence from a provider failure —
under the raw query string (the key shared by both providers), so the
cache then holds an entry for `q`; every subsequent `search q` within the
7-day TTL is a pure cache hit: it issues zero underlying provider calls
(both counters unchanged), leaves the cache unchanged, and returns the
cached value. -/
theorem c10_search_populates_cache (p1 p2 : ProviderFun) (q : String) (c : Cache)
    (t t' n1 n2 : Nat) (_htt : t ≤ t') (hwin : t' < t + WEEK)
    (hmiss : cacheGet c t q = none) :
    search p1 p2 q c t n1 n2 =
      (p1 q n1, cacheSet c q (p1 q n1) WEEK t, n1 + 1, n2) ∧
    cacheGet (cacheSet c q (p1 q n1) WEEK t) t' q = some (p1 q n1) ∧
    search p1 p2 q (cacheSet c q (p1 q n1) WEEK t) t' (n1 + 1) n2 =
      (p1 q n1, cacheSet c q (p1 q n1) WEEK t, n1 + 1, n2) := by
  have hhit : cacheGet (cacheSet c q (p1 q n1) WEEK t) t' q = some (p1 q n1) := by
    rw [cacheGet_cacheSet_self]
    exact if_pos hwin
  exact ⟨search_of_miss q t c hmiss p1 p2 n1 n2, hhit,
    search_of_hit q t' _ _ hhit p1 p2 (n1 + 1) n2⟩

/-- C10 (witness): the first provider fails (empty result); the empty
sequence is cached and the second search a day later returns it with no
provider call. -/
theorem c10_witness :
    search (fun _ _ => []) (fun _ _ => [⟨"T", "u", "s"⟩]) "x" [] 0 0 0 =
      ([], cacheSet [] "x" [] WEEK 0, 0 + 1, 0) ∧
    cacheGet (cacheSet [] "x" [] WEEK 0) 86400 "x" = some [] ∧
    search (fun _ _ => []) (fun _ _ => [⟨"T", "u", "s"⟩]) "x"
        (cacheSet [] "x" [] WEEK 0) 86400 (0 + 1) 0 =
      ([], cacheSet [] "x" [] WEEK 0, 0 + 1, 0) := by
  have h := c10_search_populates_cache (fun _ _ => []) (fun _ _ => [⟨"T", "u", "s"⟩])
    "x" [] 0 86400 0 0 (by decide) (by decide) rfl
  exact h

end NewsTool
